import Mathlib

/-!
# flashlight: tensor operator dispatch and distributed collectives

A shallow embedding of

* `flashlight/fl/tensor/TensorBase.cpp` (the `Tensor` value type and the free
  operator functions that check backend compatibility and forward to the
  operand's backend), and
* `flashlight/fl/distributed/DistributedApi.cpp` (`allReduce`,
  `allReduceMultiple`, `barrier`),

followed by theorems about them.

Conventions.  A C++ call that may throw and may touch process-global backend
state is a function `σ → Except Exn α × σ` (`Eff σ α`): the state survives an
exception.  Objects reached through references or pointers (`Variable&`,
`Tensor*`, `unique_ptr<TensorAdapterBase>`) live in an explicit memory indexed
by natural numbers.  Element and scalar values are taken from a type `R`
(`double` in the source); the numerical statements are made over `ℚ`.
-/

namespace fl

/-! ## Data model -/

/-- Shape: the ordered sequence of dimension sizes. -/
abbrev Shape := List Nat

/-- Modelled from the spec: the element type enum `dtype` (declared in a header
that is not part of the sources at hand). -/
inductive dtype where
  | f16 | f32 | f64 | b8 | s16 | s32 | s64 | u8 | u16 | u32 | u64
  deriving DecidableEq, Repr

/-- Modelled from the spec: the backend type tag `TensorBackendType`, an enum
whose enumerators are declared in a header that is not part of the sources at
hand; a tag is represented by its underlying integer. -/
structure TensorBackendType where
  tag : Nat
  deriving DecidableEq, Repr

/-- C++ exceptions that cross this layer: `std::invalid_argument` (the only one
this layer throws itself) and whatever a backend throws. -/
inductive Exn where
  | invalid_argument (what : String)
  | backendError (what : String)
  deriving DecidableEq, Repr

/-- A call that may throw and may update the process-global backend state. -/
abbrev Eff (σ α : Type) := σ → Except Exn α × σ

/-- The state behind `impl_`: what a `TensorAdapterBase` reports through
`shape()`, `type()`, `backendType()`, together with its contents. -/
structure TensorAdapterBase (R : Type) where
  shape : Shape
  type : dtype
  backendType : TensorBackendType
  data : List R
  deriving DecidableEq, Repr

/-- Source: `Tensor`: exclusively owns one adapter (`std::unique_ptr<TensorAdapterBase> impl_`). -/
structure Tensor (R : Type) where
  impl_ : TensorAdapterBase R
  deriving DecidableEq, Repr

/-- Source: `Tensor::shape()`. -/
def Tensor.shape {R : Type} (t : Tensor R) : Shape := t.impl_.shape

/-- Source: `Tensor::type()`. -/
def Tensor.type {R : Type} (t : Tensor R) : dtype := t.impl_.type

/-- Source: `Tensor::backendType()`. -/
def Tensor.backendType {R : Type} (t : Tensor R) : TensorBackendType := t.impl_.backendType

/-- The backend interface `TensorBackend` as far as `TensorBase.cpp` calls it:
one entry per virtual operation, each free to throw and to update the backend
state. -/
structure TensorBackend (R σ : Type) where
  exp : Tensor R → Eff σ (Tensor R)
  log : Tensor R → Eff σ (Tensor R)
  negative : Tensor R → Eff σ (Tensor R)
  logicalNot : Tensor R → Eff σ (Tensor R)
  log1p : Tensor R → Eff σ (Tensor R)
  sin : Tensor R → Eff σ (Tensor R)
  cos : Tensor R → Eff σ (Tensor R)
  sqrt : Tensor R → Eff σ (Tensor R)
  tanh : Tensor R → Eff σ (Tensor R)
  absolute : Tensor R → Eff σ (Tensor R)
  clip : Tensor R → Tensor R → Tensor R → Eff σ (Tensor R)
  isnan : Tensor R → Eff σ (Tensor R)
  minimum : Tensor R → Tensor R → Eff σ (Tensor R)
  maximum : Tensor R → Tensor R → Eff σ (Tensor R)
  power : Tensor R → Tensor R → Eff σ (Tensor R)
  amin : Tensor R → List Int → Eff σ (Tensor R)
  amax : Tensor R → List Int → Eff σ (Tensor R)
  sum : Tensor R → List Int → Eff σ (Tensor R)
  mean : Tensor R → List Int → Eff σ (Tensor R)
  var : Tensor R → List Int → Bool → Eff σ (Tensor R)
  norm : Tensor R → Eff σ R

/-- What `TensorBase.cpp` uses but does not define.

* `backend t` is `t.impl_->backend()`, the virtual call that yields the backend
  a tensor dispatches to;
* `full dims val` is `fl::full(dims, val)`, the creation of a tensor of shape
  `dims` filled with `val`.  Tensor creation is taken to be total and without
  effect on the backend state, so the order in which C++ evaluates two `full`
  arguments of one call cannot be observed;
* `fromVector` is `Tensor::fromVector`, `asScalar` is `Tensor::asScalar`. -/
structure TensorRuntime (R σ : Type) where
  backend : Tensor R → TensorBackend R σ
  full : Shape → R → Tensor R
  fromVector : List Int → Tensor R
  asScalar : Tensor R → Eff σ R

/-- Source: `Tensor::backend()`. -/
def Tensor.backend {R σ : Type} (W : TensorRuntime R σ) (t : Tensor R) : TensorBackend R σ :=
  W.backend t

/-- Modelled from the spec: `detail::areBackendsEqual(...)`, declared in a
header that is not part of the sources at hand: the backend types of all
operands are pairwise equal. -/
def areBackendsEqual {R : Type} (ts : List (Tensor R)) : Bool :=
  decide (List.Pairwise (fun a b => Tensor.backendType a = Tensor.backendType b) ts)

/-- The macro `FL_TENSOR_BACKENDS_MATCH_CHECK(...)`, expanded inside the function
called `func` (the value of `__func__`): throws `std::invalid_argument` when the
operands' backends differ, otherwise runs the rest of the function body. -/
def FL_TENSOR_BACKENDS_MATCH_CHECK {R σ α : Type} (func : String) (ts : List (Tensor R))
    (body : Eff σ α) : Eff σ α :=
  fun s =>
    if !areBackendsEqual ts then
      (Except.error (Exn.invalid_argument (func ++ " called with tensors of different backends.")), s)
    else
      body s

/-! ## Tensor operators (`TensorBase.cpp`) -/

section Operators

variable {R σ : Type}

/-- Source: `Tensor exp(const Tensor& tensor)`. -/
def exp (W : TensorRuntime R σ) (tensor : Tensor R) : Eff σ (Tensor R) :=
  (tensor.backend W).exp tensor

/-- Source: `Tensor log(const Tensor& tensor)`. -/
def log (W : TensorRuntime R σ) (tensor : Tensor R) : Eff σ (Tensor R) :=
  (tensor.backend W).log tensor

/-- Source: `Tensor negative(const Tensor& tensor)`. -/
def negative (W : TensorRuntime R σ) (tensor : Tensor R) : Eff σ (Tensor R) :=
  (tensor.backend W).negative tensor

/-- Source: `Tensor logicalNot(const Tensor& tensor)`. -/
def logicalNot (W : TensorRuntime R σ) (tensor : Tensor R) : Eff σ (Tensor R) :=
  (tensor.backend W).logicalNot tensor

/-- Source: `Tensor log1p(const Tensor& tensor)`. -/
def log1p (W : TensorRuntime R σ) (tensor : Tensor R) : Eff σ (Tensor R) :=
  (tensor.backend W).log1p tensor

/-- Source: `Tensor sin(const Tensor& tensor)`. -/
def sin (W : TensorRuntime R σ) (tensor : Tensor R) : Eff σ (Tensor R) :=
  (tensor.backend W).sin tensor

/-- Source: `Tensor cos(const Tensor& tensor)`. -/
def cos (W : TensorRuntime R σ) (tensor : Tensor R) : Eff σ (Tensor R) :=
  (tensor.backend W).cos tensor

/-- Source: `Tensor sqrt(const Tensor& tensor)`. -/
def sqrt (W : TensorRuntime R σ) (tensor : Tensor R) : Eff σ (Tensor R) :=
  (tensor.backend W).sqrt tensor

/-- Source: `Tensor tanh(const Tensor& tensor)`. -/
def tanh (W : TensorRuntime R σ) (tensor : Tensor R) : Eff σ (Tensor R) :=
  (tensor.backend W).tanh tensor

/-- Source: `Tensor absolute(const Tensor& tensor)`. -/
def absolute (W : TensorRuntime R σ) (tensor : Tensor R) : Eff σ (Tensor R) :=
  (tensor.backend W).absolute tensor

/-- Source: `Tensor clip(const Tensor& tensor, const Tensor& low, const Tensor& high)`. -/
def clip (W : TensorRuntime R σ) (tensor low high : Tensor R) : Eff σ (Tensor R) :=
  FL_TENSOR_BACKENDS_MATCH_CHECK "clip" [tensor, low, high]
    ((tensor.backend W).clip tensor low high)

/-- Source: `Tensor clip(const Tensor& tensor, const Tensor& low, const double& high)`. -/
def clipTensorScalar (W : TensorRuntime R σ) (tensor low : Tensor R) (high : R) :
    Eff σ (Tensor R) :=
  clip W tensor low (W.full tensor.shape high)

/-- Source: `Tensor clip(const Tensor& tensor, const double& low, const Tensor& high)`. -/
def clipScalarTensor (W : TensorRuntime R σ) (tensor : Tensor R) (low : R) (high : Tensor R) :
    Eff σ (Tensor R) :=
  clip W tensor (W.full tensor.shape low) high

/-- Source: `Tensor clip(const Tensor& tensor, const double& low, const double& high)`. -/
def clipScalarScalar (W : TensorRuntime R σ) (tensor : Tensor R) (low high : R) :
    Eff σ (Tensor R) :=
  clip W tensor (W.full tensor.shape low) (W.full tensor.shape high)

/-- Source: `Tensor isnan(const Tensor& tensor)`. -/
def isnan (W : TensorRuntime R σ) (tensor : Tensor R) : Eff σ (Tensor R) :=
  (tensor.backend W).isnan tensor

/-- Source: `Tensor minimum(const Tensor& lhs, const Tensor& rhs)`. -/
def minimum (W : TensorRuntime R σ) (lhs rhs : Tensor R) : Eff σ (Tensor R) :=
  FL_TENSOR_BACKENDS_MATCH_CHECK "minimum" [lhs, rhs] ((lhs.backend W).minimum lhs rhs)

/-- Source: `Tensor maximum(const Tensor& lhs, const Tensor& rhs)`. -/
def maximum (W : TensorRuntime R σ) (lhs rhs : Tensor R) : Eff σ (Tensor R) :=
  FL_TENSOR_BACKENDS_MATCH_CHECK "maximum" [lhs, rhs] ((lhs.backend W).maximum lhs rhs)

/-- Source: `Tensor minimum(const Tensor& lhs, const double& rhs)`. -/
def minimumTensorScalar (W : TensorRuntime R σ) (lhs : Tensor R) (rhs : R) : Eff σ (Tensor R) :=
  minimum W lhs (W.full lhs.shape rhs)

/-- Source: `Tensor minimum(const double& lhs, const Tensor& rhs)`. -/
def minimumScalarTensor (W : TensorRuntime R σ) (lhs : R) (rhs : Tensor R) : Eff σ (Tensor R) :=
  minimum W (W.full rhs.shape lhs) rhs

/-- Source: `Tensor maximum(const Tensor& lhs, const double& rhs)`. -/
def maximumTensorScalar (W : TensorRuntime R σ) (lhs : Tensor R) (rhs : R) : Eff σ (Tensor R) :=
  maximum W lhs (W.full lhs.shape rhs)

/-- Source: `Tensor maximum(const double& lhs, const Tensor& rhs)`. -/
def maximumScalarTensor (W : TensorRuntime R σ) (lhs : R) (rhs : Tensor R) : Eff σ (Tensor R) :=
  maximum W (W.full rhs.shape lhs) rhs

/-- Source: `Tensor power(const Tensor& lhs, const Tensor& rhs)`. -/
def power (W : TensorRuntime R σ) (lhs rhs : Tensor R) : Eff σ (Tensor R) :=
  FL_TENSOR_BACKENDS_MATCH_CHECK "power" [lhs, rhs] ((lhs.backend W).power lhs rhs)

/-- Source: `Tensor amin(const Tensor& input, const std::vector<int>& axes)`. -/
def amin (W : TensorRuntime R σ) (input : Tensor R) (axes : List Int) : Eff σ (Tensor R) :=
  (input.backend W).amin input axes

/-- Source: `Tensor amax(const Tensor& input, const std::vector<int>& axes)`. -/
def amax (W : TensorRuntime R σ) (input : Tensor R) (axes : List Int) : Eff σ (Tensor R) :=
  (input.backend W).amax input axes

/-- Source: `Tensor sum(const Tensor& input, const std::vector<int>& axes)`. -/
def sum (W : TensorRuntime R σ) (input : Tensor R) (axes : List Int) : Eff σ (Tensor R) :=
  (input.backend W).sum input axes

/-- Source: `Tensor mean(const Tensor& input, const std::vector<int>& axes)`. -/
def mean (W : TensorRuntime R σ) (input : Tensor R) (axes : List Int) : Eff σ (Tensor R) :=
  (input.backend W).mean input axes

/-- Source: `Tensor var(const Tensor& input, const std::vector<int>& axes, bool bias)`. -/
def var (W : TensorRuntime R σ) (input : Tensor R) (axes : List Int) (bias : Bool) :
    Eff σ (Tensor R) :=
  (input.backend W).var input axes bias

/-- Source: `double norm(const Tensor& input)`. -/
def norm (W : TensorRuntime R σ) (input : Tensor R) : Eff σ R :=
  (input.backend W).norm input

end Operators

/-! ## Distributed collectives (`DistributedApi.cpp`) -/

/-- Memory of one process: the `Tensor` objects that are reached through
references and pointers, by address. -/
abbrev Memory (R : Type) := Nat → Tensor R

/-- Modelled from the spec: `Variable` (declared in a header that is not part of
the sources at hand) as far as the collectives use it.  `allReduceMultiple`
takes its Variables by value and the caller observes what it does to their
tensors, so a copy of a `Variable` refers to the same tensor: a `Variable` is a
handle on shared data holding the tensor. -/
structure Variable where
  sharedData_ : Nat
  deriving DecidableEq, Repr

/-- Source: `Variable::tensor()`: the tensor a variable refers to. -/
def Variable.tensor {R : Type} (mem : Memory R) (var : Variable) : Tensor R :=
  mem var.sharedData_

/-- Modelled from the spec: `Tensor::operator*=(double)`, defined outside the
sources at hand: the tensor is multiplied in place by the scalar, element by
element; shape, element type and backend stay as they are. -/
def Tensor.mulAssign {R : Type} [Mul R] (t : Tensor R) (scale : R) : Tensor R :=
  { impl_ := { t.impl_ with data := t.impl_.data.map (fun x => x * scale) } }

/-- What `DistributedApi.cpp` uses from the distributed backend.

* `getWorldSize` is `getWorldSize()`; the world size is fixed before any
  collective is issued and does not change afterwards;
* `allReduce` is the collective-sum primitive `allReduce(Tensor&, bool async)`:
  it replaces the referenced tensor and may change the backend state;
* `allReduceMultiple` is the batched primitive
  `allReduceMultiple(std::vector<Tensor*>, bool async, bool contiguous)`: it
  works on memory through the pointers it is given.

Transport failures are fatal to the caller and outside this layer; the
primitives are total here. -/
structure DistributedEnv (R σ : Type) where
  getWorldSize : Int
  allReduce : Tensor R → Bool → σ → Tensor R × σ
  allReduceMultiple : List Nat → Bool → Bool → Memory R × σ → Memory R × σ

section Collectives

variable {R σ : Type}

/-- The statement `allReduce(var.tensor(), async);`: the primitive applied in
place to the tensor at address `p`. -/
def allReduceInPlace (env : DistributedEnv R σ) (p : Nat) (async : Bool)
    (st : Memory R × σ) : Memory R × σ :=
  let r := env.allReduce (st.1 p) async st.2
  (Function.update st.1 p r.1, r.2)

/-- The statement `var.tensor() *= scale;`. -/
def scaleInPlace [Mul R] (var : Variable) (scale : R) (mem : Memory R) : Memory R :=
  Function.update mem var.sharedData_ ((var.tensor mem).mulAssign scale)

/-- Source: `void allReduce(Variable& var, double scale, bool async)`. -/
def allReduce [Mul R] (env : DistributedEnv R σ) (var : Variable) (scale : R) (async : Bool)
    (st : Memory R × σ) : Memory R × σ :=
  let st1 := if env.getWorldSize > 1 then allReduceInPlace env var.sharedData_ async st else st
  (scaleInPlace var scale st1.1, st1.2)

/-- Source: `void allReduceMultiple(std::vector<Variable> vars, double scale, bool async,
bool contiguous)`. -/
def allReduceMultiple [Mul R] (env : DistributedEnv R σ) (vars : List Variable) (scale : R)
    (async contiguous : Bool) (st : Memory R × σ) : Memory R × σ :=
  let arrs := vars.map (fun var => var.sharedData_)
  let st1 := if env.getWorldSize > 1 then env.allReduceMultiple arrs async contiguous st else st
  (vars.foldl (fun mem var => scaleInPlace var scale mem) st1.1, st1.2)

/-- Source: `void barrier()`. -/
def barrier (W : TensorRuntime R σ) (env : DistributedEnv R σ) : Eff σ Unit :=
  fun s =>
    let tensor := W.fromVector [0]
    let r := env.allReduce tensor false s
    match sum W r.1 [] r.2 with
    | (Except.error e, s2) => (Except.error e, s2)
    | (Except.ok total, s2) =>
      match W.asScalar total s2 with
      | (Except.error e, s3) => (Except.error e, s3)
      | (Except.ok _, s3) => (Except.ok (), s3)

end Collectives

/-! ## Instrumentation: counting calls of the collective primitives -/

/-- One call of a collective primitive, with its arguments:
`allReduce(Tensor&, bool async)` on the tensor it was given, or
`allReduceMultiple(std::vector<Tensor*>, bool async, bool contiguous)` on the
pointers it was given. -/
inductive CollectiveCall (R : Type) where
  | allReduce (tensor : Tensor R) (async : Bool)
  | allReduceMultiple (arrs : List Nat) (async contiguous : Bool)
  deriving DecidableEq, Repr

section Counting

variable {R σ : Type}

/-- A call that leaves an added record of collective calls (a counter, a log)
alone. -/
def Eff.lift {α κ : Type} (f : Eff σ α) : Eff (σ × κ) α :=
  fun s => ((f s.1).1, ((f s.1).2, s.2))

/-- A backend run next to a record of collective calls it does not touch. -/
def TensorBackend.lift {κ : Type} (B : TensorBackend R σ) : TensorBackend R (σ × κ) where
  exp := fun t => Eff.lift (B.exp t)
  log := fun t => Eff.lift (B.log t)
  negative := fun t => Eff.lift (B.negative t)
  logicalNot := fun t => Eff.lift (B.logicalNot t)
  log1p := fun t => Eff.lift (B.log1p t)
  sin := fun t => Eff.lift (B.sin t)
  cos := fun t => Eff.lift (B.cos t)
  sqrt := fun t => Eff.lift (B.sqrt t)
  tanh := fun t => Eff.lift (B.tanh t)
  absolute := fun t => Eff.lift (B.absolute t)
  clip := fun t lo hi => Eff.lift (B.clip t lo hi)
  isnan := fun t => Eff.lift (B.isnan t)
  minimum := fun a b => Eff.lift (B.minimum a b)
  maximum := fun a b => Eff.lift (B.maximum a b)
  power := fun a b => Eff.lift (B.power a b)
  amin := fun t axes => Eff.lift (B.amin t axes)
  amax := fun t axes => Eff.lift (B.amax t axes)
  sum := fun t axes => Eff.lift (B.sum t axes)
  mean := fun t axes => Eff.lift (B.mean t axes)
  var := fun t axes bias => Eff.lift (B.var t axes bias)
  norm := fun t => Eff.lift (B.norm t)

/-- A tensor runtime run next to a record of collective calls it does not touch. -/
def TensorRuntime.lift {κ : Type} (W : TensorRuntime R σ) : TensorRuntime R (σ × κ) where
  backend := fun t => (W.backend t).lift
  full := W.full
  fromVector := W.fromVector
  asScalar := fun t => Eff.lift (W.asScalar t)

/-- The distributed backend with a counter that every call of a collective
primitive (`allReduce(Tensor&, bool)` or the batched one) increments. -/
def DistributedEnv.counted (env : DistributedEnv R σ) : DistributedEnv R (σ × Nat) where
  getWorldSize := env.getWorldSize
  allReduce := fun t async s =>
    ((env.allReduce t async s.1).1, ((env.allReduce t async s.1).2, s.2 + 1))
  allReduceMultiple := fun arrs async contiguous st =>
    ((env.allReduceMultiple arrs async contiguous (st.1, st.2.1)).1,
      ((env.allReduceMultiple arrs async contiguous (st.1, st.2.1)).2, st.2.2 + 1))

/-- The distributed backend with a log to which every call of a collective
primitive appends its own entry, arguments included: the log tells which
primitive ran, on what, and in which order. -/
def DistributedEnv.traced (env : DistributedEnv R σ) :
    DistributedEnv R (σ × List (CollectiveCall R)) where
  getWorldSize := env.getWorldSize
  allReduce := fun t async s =>
    ((env.allReduce t async s.1).1,
      ((env.allReduce t async s.1).2, s.2 ++ [CollectiveCall.allReduce t async]))
  allReduceMultiple := fun arrs async contiguous st =>
    ((env.allReduceMultiple arrs async contiguous (st.1, st.2.1)).1,
      ((env.allReduceMultiple arrs async contiguous (st.1, st.2.1)).2,
        st.2.2 ++ [CollectiveCall.allReduceMultiple arrs async contiguous]))

end Counting

/-! ## Synthetic processes for the averaging property -/

/-- Elementwise sum of the per-process value lists `vs`, over the coordinates of
the first one. -/
def elementwiseSum (vs : List (List ℚ)) : List ℚ :=
  (List.range (vs.headD []).length).map (fun j => (vs.map (fun v => v.getD j 0)).sum)

/-- Elementwise mean of the per-process value lists `vs`:
coordinate `j` is `(v₁[j] + ... + v_N[j]) / N`. -/
def elementwiseMean (vs : List (List ℚ)) : List ℚ :=
  (List.range (vs.headD []).length).map
    (fun j => (vs.map (fun v => v.getD j 0)).sum / (vs.length : ℚ))

/-- The collective of a test backend for `vs.length` synthetic processes holding
the values `vs`: the contents of the tensor are replaced by the elementwise sum;
the backend state is not used. -/
def syntheticAllReduce (vs : List (List ℚ)) (t : Tensor ℚ) (_async : Bool) (s : Nat) :
    Tensor ℚ × Nat :=
  ({ impl_ := { t.impl_ with data := elementwiseSum vs } }, s)

/-- A test backend for `vs.length` synthetic processes holding the values `vs`;
its batched collective runs the single-tensor one on each pointer in turn. -/
def syntheticBackend (vs : List (List ℚ)) : DistributedEnv ℚ Nat where
  getWorldSize := (vs.length : Int)
  allReduce := syntheticAllReduce vs
  allReduceMultiple := fun arrs async _ st =>
    arrs.foldl
      (fun acc p =>
        (Function.update acc.1 p (syntheticAllReduce vs (acc.1 p) async acc.2).1,
          (syntheticAllReduce vs (acc.1 p) async acc.2).2))
      st

/-! ## Ownership of adapters -/

/-- The free store holding adapter objects: `cell p` is the adapter at address
`p`, and `next` is the first address not handed out yet. -/
structure AdapterStore (R : Type) where
  cell : Nat → TensorAdapterBase R
  next : Nat

/-- A `Tensor` object seen with its `impl_` as the address of the adapter it
owns. -/
structure TensorObj where
  impl_ : Nat
  deriving DecidableEq, Repr

section Ownership

variable {R : Type}

/-- Modelled from the spec: `TensorAdapterBase::clone()`, implemented by each
backend outside the sources at hand: a deep clone, that is a newly allocated
adapter whose state is a copy of the cloned one. -/
def AdapterStore.clone (h : AdapterStore R) (p : Nat) : Nat × AdapterStore R :=
  (h.next, { cell := Function.update h.cell h.next (h.cell p), next := h.next + 1 })

/-- Source: `Tensor::Tensor(const Tensor& tensor) : impl_(tensor.impl_->clone())`. -/
def TensorObj.copy (h : AdapterStore R) (tensor : TensorObj) : TensorObj × AdapterStore R :=
  ({ impl_ := (h.clone tensor.impl_).1 }, (h.clone tensor.impl_).2)

/-- What can be observed of a tensor: the state of the adapter it owns
(`shape()`, `type()`, `backendType()`, contents). -/
def TensorObj.observe (h : AdapterStore R) (t : TensorObj) : TensorAdapterBase R :=
  h.cell t.impl_

/-- A mutation through a tensor: its adapter's state is replaced by `f` of it. -/
def TensorObj.mutate (h : AdapterStore R) (t : TensorObj)
    (f : TensorAdapterBase R → TensorAdapterBase R) : AdapterStore R :=
  { h with cell := Function.update h.cell t.impl_ (f (h.cell t.impl_)) }

end Ownership

/-! ## The spec's reading of the `clip` overloads -/

section ClipSpec

variable {R σ : Type}

/-- The spec's `broadcast(scalar, shape)`: a full tensor of the given shape. -/
def broadcast (W : TensorRuntime R σ) (x : R) (shape : Shape) : Tensor R :=
  W.full shape x

/-- The spec's canonicalisation of a `clip` bound for the operand `t`: a scalar
bound becomes a broadcast full tensor of the operand's shape, a tensor bound is
kept. -/
def canonicalBound (W : TensorRuntime R σ) (t : Tensor R) : R ⊕ Tensor R → Tensor R
  | Sum.inl x => broadcast W x t.shape
  | Sum.inr b => b

/-- The spec's single algorithmic path of `clip`: canonicalise both bounds, then
call the tensor/tensor form with the low bound second and the high bound third. -/
def clipCanonical (W : TensorRuntime R σ) (t : Tensor R) (low high : R ⊕ Tensor R) :
    Eff σ (Tensor R) :=
  clip W t (canonicalBound W t low) (canonicalBound W t high)

end ClipSpec

/-! ## Test instances -/

/-- A test backend over `ℚ` whose state is the number of operations it has been
asked to run: every operation counts itself and hands back its first operand. -/
def stubBackend : TensorBackend ℚ Nat where
  exp := fun t n => (Except.ok t, n + 1)
  log := fun t n => (Except.ok t, n + 1)
  negative := fun t n => (Except.ok t, n + 1)
  logicalNot := fun t n => (Except.ok t, n + 1)
  log1p := fun t n => (Except.ok t, n + 1)
  sin := fun t n => (Except.ok t, n + 1)
  cos := fun t n => (Except.ok t, n + 1)
  sqrt := fun t n => (Except.ok t, n + 1)
  tanh := fun t n => (Except.ok t, n + 1)
  absolute := fun t n => (Except.ok t, n + 1)
  clip := fun t _ _ n => (Except.ok t, n + 1)
  isnan := fun t n => (Except.ok t, n + 1)
  minimum := fun a _ n => (Except.ok a, n + 1)
  maximum := fun a _ n => (Except.ok a, n + 1)
  power := fun a _ n => (Except.ok a, n + 1)
  amin := fun t _ n => (Except.ok t, n + 1)
  amax := fun t _ n => (Except.ok t, n + 1)
  sum := fun t _ n => (Except.ok t, n + 1)
  mean := fun t _ n => (Except.ok t, n + 1)
  var := fun t _ _ n => (Except.ok t, n + 1)
  norm := fun _ n => (Except.ok 0, n + 1)

/-- A test tensor: one-dimensional, of the backend with tag `tag`. -/
def testTensor (tag : Nat) (xs : List ℚ) : Tensor ℚ :=
  { impl_ := { shape := [xs.length], type := dtype.f64, backendType := { tag := tag }, data := xs } }

/-- A test runtime: every tensor dispatches to `stubBackend`, and `full` creates
its tensors on the backend with tag `fullTag`. -/
def testRuntime (fullTag : Nat) : TensorRuntime ℚ Nat where
  backend := fun _ => stubBackend
  full := fun dims val =>
    { impl_ := { shape := dims, type := dtype.f64, backendType := { tag := fullTag },
                 data := List.replicate dims.prod val } }
  fromVector := fun xs => testTensor 0 (xs.map (fun x => (x : ℚ)))
  asScalar := fun t n => (Except.ok (t.impl_.data.headD 0), n)

/-- A process memory holding the same test tensor at every address. -/
def testMemory (xs : List ℚ) : Memory ℚ := fun _ => testTensor 0 xs

/-- An adapter store in which the first `n` addresses are in use. -/
def testStore (n : Nat) : AdapterStore ℚ where
  cell := fun p => (testTensor 0 [(p : ℚ)]).impl_
  next := n

end fl

/-! ## Theorems -/

namespace fl

section OperatorTheorems

variable {R σ : Type}

theorem areBackendsEqual_pair (a b : Tensor R) :
    areBackendsEqual [a, b] = decide (a.backendType = b.backendType) := by
  simp [areBackendsEqual]

theorem areBackendsEqual_triple (a b c : Tensor R) :
    areBackendsEqual [a, b, c]
      = decide ((a.backendType = b.backendType ∧ a.backendType = c.backendType)
          ∧ b.backendType = c.backendType) := by
  simp [areBackendsEqual]

theorem check_mismatch {α : Type} (func : String) (ts : List (Tensor R)) (body : Eff σ α)
    (s : σ) (h : areBackendsEqual ts = false) :
    FL_TENSOR_BACKENDS_MATCH_CHECK func ts body s
      = (Except.error (Exn.invalid_argument (func ++ " called with tensors of different backends.")), s) := by
  simp [FL_TENSOR_BACKENDS_MATCH_CHECK, h]

theorem check_match {α : Type} (func : String) (ts : List (Tensor R)) (body : Eff σ α)
    (s : σ) (h : areBackendsEqual ts = true) :
    FL_TENSOR_BACKENDS_MATCH_CHECK func ts body s = body s := by
  simp [FL_TENSOR_BACKENDS_MATCH_CHECK, h]

/-- C2: for `minimum`, `maximum`, `power` (two tensors) and `clip` (three
tensors), when the operands' backend types are not pairwise equal the call
throws `std::invalid_argument` with the message
`<name of the called operation> called with tensors of different backends.`,
and the backend state is the one before the call, whatever the backend: no
backend operation has run. -/
theorem backend_mismatch_invalid_argument (W : TensorRuntime R σ) (a b c : Tensor R) (s : σ) :
    (a.backendType ≠ b.backendType →
        minimum W a b s
            = (Except.error (Exn.invalid_argument
                ("minimum" ++ " called with tensors of different backends.")), s)
        ∧ maximum W a b s
            = (Except.error (Exn.invalid_argument
                ("maximum" ++ " called with tensors of different backends.")), s)
        ∧ power W a b s
            = (Except.error (Exn.invalid_argument
                ("power" ++ " called with tensors of different backends.")), s))
    ∧ (¬ (a.backendType = b.backendType ∧ a.backendType = c.backendType
          ∧ b.backendType = c.backendType) →
        clip W a b c s
            = (Except.error (Exn.invalid_argument
                ("clip" ++ " called with tensors of different backends.")), s)) := by
  refine ⟨fun h => ?_, fun h => ?_⟩
  · have hne : areBackendsEqual [a, b] = false := by
      rw [areBackendsEqual_pair]; exact decide_eq_false h
    exact ⟨check_mismatch _ _ _ s hne, check_mismatch _ _ _ s hne, check_mismatch _ _ _ s hne⟩
  · have hne : areBackendsEqual [a, b, c] = false := by
      rw [areBackendsEqual_triple]
      exact decide_eq_false (fun h3 => h ⟨h3.1.1, h3.1.2, h3.2⟩)
    exact check_mismatch _ _ _ s hne

/-- Witness for C2: on the test runtime, `minimum` of a tensor of backend 0 and
a tensor of backend 1 fails with a message that starts with `minimum`, and
`clip` with a high bound of another backend fails with a message that starts
with `clip`; the stub backend has counted no call. -/
theorem backend_mismatch_invalid_argument_witness :
    minimum (testRuntime 0) (testTensor 0 [1]) (testTensor 1 [2]) 0
        = (Except.error (Exn.invalid_argument
            "minimum called with tensors of different backends."), 0)
    ∧ clip (testRuntime 0) (testTensor 0 [1]) (testTensor 0 [2]) (testTensor 1 [3]) 0
        = (Except.error (Exn.invalid_argument
            "clip called with tensors of different backends."), 0) :=
  ⟨((backend_mismatch_invalid_argument (testRuntime 0) (testTensor 0 [1]) (testTensor 1 [2])
        (testTensor 1 [2]) 0).1 (by decide)).1,
    (backend_mismatch_invalid_argument (testRuntime 0) (testTensor 0 [1]) (testTensor 0 [2])
        (testTensor 1 [3]) 0).2 (by decide)⟩

/-- C3: each scalar-taking overload of `clip` is the tensor/tensor `clip` applied
to the scalar bounds broadcast to the operand's shape, low bound second and high
bound third; this is the spec's canonical path `clipCanonical` for the four
combinations of tensor and scalar bounds. -/
theorem clip_overloads_canonical (W : TensorRuntime R σ) (t lowT highT : Tensor R) (lo hi : R) :
    (clipScalarScalar W t lo hi = clip W t (W.full t.shape lo) (W.full t.shape hi)
      ∧ clipTensorScalar W t lowT hi = clip W t lowT (W.full t.shape hi)
      ∧ clipScalarTensor W t lo highT = clip W t (W.full t.shape lo) highT)
    ∧ (clipScalarScalar W t lo hi = clipCanonical W t (Sum.inl lo) (Sum.inl hi)
      ∧ clipTensorScalar W t lowT hi = clipCanonical W t (Sum.inr lowT) (Sum.inl hi)
      ∧ clipScalarTensor W t lo highT = clipCanonical W t (Sum.inl lo) (Sum.inr highT)
      ∧ clip W t lowT highT = clipCanonical W t (Sum.inr lowT) (Sum.inr highT)) :=
  ⟨⟨rfl, rfl, rfl⟩, rfl, rfl, rfl, rfl⟩

/-- C9: a single-tensor operation is its operand's backend operation on the same
arguments, outcome and state alike; a tensor/tensor call of `minimum`,
`maximum`, `power` or `clip` whose operands' backend types are all equal is the
first operand's backend operation with the operands in the same order. -/
theorem dispatch_adds_no_error (W : TensorRuntime R σ) (t a b c : Tensor R) (axes : List Int)
    (bias : Bool) (s : σ) :
    (exp W t s = (W.backend t).exp t s
      ∧ log W t s = (W.backend t).log t s
      ∧ negative W t s = (W.backend t).negative t s
      ∧ logicalNot W t s = (W.backend t).logicalNot t s
      ∧ log1p W t s = (W.backend t).log1p t s
      ∧ sin W t s = (W.backend t).sin t s
      ∧ cos W t s = (W.backend t).cos t s
      ∧ sqrt W t s = (W.backend t).sqrt t s
      ∧ tanh W t s = (W.backend t).tanh t s
      ∧ absolute W t s = (W.backend t).absolute t s
      ∧ isnan W t s = (W.backend t).isnan t s
      ∧ amin W t axes s = (W.backend t).amin t axes s
      ∧ amax W t axes s = (W.backend t).amax t axes s
      ∧ sum W t axes s = (W.backend t).sum t axes s
      ∧ mean W t axes s = (W.backend t).mean t axes s
      ∧ var W t axes bias s = (W.backend t).var t axes bias s
      ∧ norm W t s = (W.backend t).norm t s)
    ∧ (a.backendType = b.backendType →
        minimum W a b s = (W.backend a).minimum a b s
        ∧ maximum W a b s = (W.backend a).maximum a b s
        ∧ power W a b s = (W.backend a).power a b s)
    ∧ (a.backendType = b.backendType ∧ a.backendType = c.backendType
          ∧ b.backendType = c.backendType →
        clip W a b c s = (W.backend a).clip a b c s) := by
  refine ⟨⟨rfl, rfl, rfl, rfl, rfl, rfl, rfl, rfl, rfl, rfl, rfl, rfl, rfl, rfl, rfl, rfl, rfl⟩,
    fun h => ?_, fun h => ?_⟩
  · have heq : areBackendsEqual [a, b] = true := by
      rw [areBackendsEqual_pair]; exact decide_eq_true h
    exact ⟨check_match _ _ _ s heq, check_match _ _ _ s heq, check_match _ _ _ s heq⟩
  · have heq : areBackendsEqual [a, b, c] = true := by
      rw [areBackendsEqual_triple]; exact decide_eq_true ⟨⟨h.1, h.2.1⟩, h.2.2⟩
    exact check_match _ _ _ s heq

/-- Witness for C9: on the test runtime, `minimum` and `clip` of tensors of one
backend are the stub backend's operations, which count one call. -/
theorem dispatch_adds_no_error_witness :
    minimum (testRuntime 0) (testTensor 0 [1]) (testTensor 0 [2]) 0
        = (Except.ok (testTensor 0 [1]), 1)
    ∧ clip (testRuntime 0) (testTensor 0 [1]) (testTensor 0 [2]) (testTensor 0 [3]) 0
        = (Except.ok (testTensor 0 [1]), 1) :=
  ⟨((dispatch_adds_no_error (testRuntime 0) (testTensor 0 [1]) (testTensor 0 [1])
        (testTensor 0 [2]) (testTensor 0 [3]) [] false 0).2.1 (by decide)).1,
    (dispatch_adds_no_error (testRuntime 0) (testTensor 0 [1]) (testTensor 0 [1])
        (testTensor 0 [2]) (testTensor 0 [3]) [] false 0).2.2 (by decide)⟩

/-- C10: when the tensor that `full(t.shape(), x)` creates has a backend type
other than `t`'s, the scalar overloads `clip(t, x, y)`, `clip(t, lowT, x)`,
`clip(t, x, highT)`, `minimum(t, x)`, `minimum(x, t)`, `maximum(t, x)` and
`maximum(x, t)` all throw the backend-mismatch `std::invalid_argument` naming
`clip`, `minimum` or `maximum`, with the backend state untouched; when the
backend types agree, `minimum(x, t)` and `maximum(x, t)` run the backend
operation of the broadcast scalar with the broadcast scalar as left operand and
`t` as right operand. -/
theorem scalar_overloads_mismatch (W : TensorRuntime R σ) (t lowT highT : Tensor R) (x y : R)
    (s : σ) :
    ((W.full t.shape x).backendType ≠ t.backendType →
        clipScalarScalar W t x y s
            = (Except.error (Exn.invalid_argument
                ("clip" ++ " called with tensors of different backends.")), s)
        ∧ clipTensorScalar W t lowT x s
            = (Except.error (Exn.invalid_argument
                ("clip" ++ " called with tensors of different backends.")), s)
        ∧ clipScalarTensor W t x highT s
            = (Except.error (Exn.invalid_argument
                ("clip" ++ " called with tensors of different backends.")), s)
        ∧ minimumTensorScalar W t x s
            = (Except.error (Exn.invalid_argument
                ("minimum" ++ " called with tensors of different backends.")), s)
        ∧ minimumScalarTensor W x t s
            = (Except.error (Exn.invalid_argument
                ("minimum" ++ " called with tensors of different backends.")), s)
        ∧ maximumTensorScalar W t x s
            = (Except.error (Exn.invalid_argument
                ("maximum" ++ " called with tensors of different backends.")), s)
        ∧ maximumScalarTensor W x t s
            = (Except.error (Exn.invalid_argument
                ("maximum" ++ " called with tensors of different backends.")), s))
    ∧ ((W.full t.shape x).backendType = t.backendType →
        minimumScalarTensor W x t s
            = (W.backend (W.full t.shape x)).minimum (W.full t.shape x) t s
        ∧ maximumScalarTensor W x t s
            = (W.backend (W.full t.shape x)).maximum (W.full t.shape x) t s) := by
  refine ⟨fun h => ?_, fun h => ?_⟩
  · have h1 : areBackendsEqual [t, W.full t.shape x, W.full t.shape y] = false := by
      rw [areBackendsEqual_triple]
      exact decide_eq_false (fun h3 => h h3.1.1.symm)
    have h2 : areBackendsEqual [t, lowT, W.full t.shape x] = false := by
      rw [areBackendsEqual_triple]
      exact decide_eq_false (fun h3 => h h3.1.2.symm)
    have h3 : areBackendsEqual [t, W.full t.shape x, highT] = false := by
      rw [areBackendsEqual_triple]
      exact decide_eq_false (fun h3 => h h3.1.1.symm)
    have h4 : areBackendsEqual [t, W.full t.shape x] = false := by
      rw [areBackendsEqual_pair]; exact decide_eq_false (fun h3 => h h3.symm)
    have h5 : areBackendsEqual [W.full t.shape x, t] = false := by
      rw [areBackendsEqual_pair]; exact decide_eq_false h
    exact ⟨check_mismatch _ _ _ s h1, check_mismatch _ _ _ s h2, check_mismatch _ _ _ s h3,
      check_mismatch _ _ _ s h4, check_mismatch _ _ _ s h5, check_mismatch _ _ _ s h4,
      check_mismatch _ _ _ s h5⟩
  · have heq : areBackendsEqual [W.full t.shape x, t] = true := by
      rw [areBackendsEqual_pair]; exact decide_eq_true h
    exact ⟨check_match _ _ _ s heq, check_match _ _ _ s heq⟩

/-- Witness for C10: with `full` creating tensors on backend 1, `minimum(t, x)`
for `t` on backend 0 fails naming `minimum`; with `full` creating tensors on
backend 0, `minimum(x, t)` reaches the stub backend with the broadcast scalar as
left operand, which the stub hands back. -/
theorem scalar_overloads_mismatch_witness :
    minimumTensorScalar (testRuntime 1) (testTensor 0 [1, 2]) 5 0
        = (Except.error (Exn.invalid_argument
            "minimum called with tensors of different backends."), 0)
    ∧ minimumScalarTensor (testRuntime 0) 5 (testTensor 0 [1, 2]) 0
        = (Except.ok ((testRuntime 0).full [2] 5), 1) :=
  ⟨((scalar_overloads_mismatch (testRuntime 1) (testTensor 0 [1, 2]) (testTensor 0 [1, 2])
        (testTensor 0 [1, 2]) 5 5 0).1 (by decide)).2.2.2.1,
    ((scalar_overloads_mismatch (testRuntime 0) (testTensor 0 [1, 2]) (testTensor 0 [1, 2])
        (testTensor 0 [1, 2]) 5 5 0).2 (by decide)).1⟩

end OperatorTheorems

section CollectiveTheorems

variable {R σ : Type}

/-- C1: at world size 1, `allReduce(var, scale, async)` only scales: the
variable's tensor becomes the old tensor times `scale`, element by element, no
other tensor and no backend state changes, and a counter of the calls of the
collective primitives stays where it was. -/
theorem allReduce_world_size_one [Mul R] (env : DistributedEnv R σ) (hws : env.getWorldSize = 1)
    (var : Variable) (scale : R) (async : Bool) (mem : Memory R) (s : σ) (calls : Nat) :
    allReduce env var scale async (mem, s)
        = (Function.update mem var.sharedData_ ((var.tensor mem).mulAssign scale), s)
    ∧ (var.tensor (allReduce env var scale async (mem, s)).1).impl_.data
        = (var.tensor mem).impl_.data.map (fun x => x * scale)
    ∧ (allReduce env.counted var scale async (mem, (s, calls))).2.2 = calls := by
  have h1 : ¬ (env.getWorldSize > 1) := by omega
  have h2 : ¬ (env.counted.getWorldSize > 1) := h1
  refine ⟨?_, ?_, ?_⟩
  · simp [allReduce, h1, scaleInPlace]
  · simp [allReduce, h1, scaleInPlace, Variable.tensor, Tensor.mulAssign]
  · simp [allReduce, h2]

/-- Witness for C1: one synthetic process holding `[1, 2]`; `allReduce` with
scale 3 leaves `[3, 6]`. -/
theorem allReduce_world_size_one_witness :
    (Variable.tensor (allReduce (syntheticBackend [[1, 2]]) { sharedData_ := 0 } 3 false
        (testMemory [1, 2], 0)).1 { sharedData_ := 0 }).impl_.data
      = [1 * 3, 2 * 3]
    ∧ (allReduce (syntheticBackend [[1, 2]]).counted { sharedData_ := 0 } 3 true
        (testMemory [1, 2], (0, 0))).2.2 = 0 :=
  ⟨(allReduce_world_size_one (syntheticBackend [[1, 2]]) rfl { sharedData_ := 0 } 3 false
      (testMemory [1, 2]) 0 0).2.1,
    (allReduce_world_size_one (syntheticBackend [[1, 2]]) rfl { sharedData_ := 0 } 3 true
      (testMemory [1, 2]) 0 0).2.2⟩

theorem barrier_traced (W : TensorRuntime R σ) (env : DistributedEnv R σ) (s : σ)
    (calls : List (CollectiveCall R)) :
    (barrier W.lift env.traced (s, calls)).2.2
      = calls ++ [CollectiveCall.allReduce (W.fromVector [0]) false] := by
  unfold barrier
  simp only [sum, Tensor.backend, TensorRuntime.lift, TensorBackend.lift, Eff.lift,
    DistributedEnv.traced]
  split
  · next e s2 heq =>
      have := congrArg (fun r => r.2.2) heq
      simpa using this.symm
  · next total s2 heq =>
      have h2 := congrArg (fun r => r.2.2) heq
      simp only at h2
      split
      · next e s3 heq3 =>
          have h3 := congrArg (fun r => r.2.2) heq3
          simp only at h3
          rw [← h3, ← h2]
      · next x s3 heq3 =>
          have h3 := congrArg (fun r => r.2.2) heq3
          simp only at h3
          rw [← h3, ← h2]

/-- C6 as the code has it: `barrier()` is not gated by world size.  With every
call of a collective primitive logged, at every world size `barrier()` adds to
the log exactly one entry, the call of `allReduce(Tensor&, bool)` on the
one-element tensor `fromVector({0})` with `async = false`, whether or not the
evaluation that follows throws.  The gate is in the other two functions only: at
world size 1 `allReduce(Variable&, ...)` and `allReduceMultiple` add nothing to
the log, and at world size above 1 each adds exactly one entry, its own
primitive. -/
theorem barrier_calls_collective_once [Mul R] (W : TensorRuntime R σ)
    (env : DistributedEnv R σ) (var : Variable) (vars : List Variable) (scale : R)
    (async contiguous : Bool) (mem : Memory R) (s : σ) (calls : List (CollectiveCall R)) :
    (barrier W.lift env.traced (s, calls)).2.2
        = calls ++ [CollectiveCall.allReduce (W.fromVector [0]) false]
    ∧ (env.getWorldSize = 1 →
        (allReduce env.traced var scale async (mem, (s, calls))).2.2 = calls
        ∧ (allReduceMultiple env.traced vars scale async contiguous (mem, (s, calls))).2.2
            = calls)
    ∧ (env.getWorldSize > 1 →
        (allReduce env.traced var scale async (mem, (s, calls))).2.2
            = calls ++ [CollectiveCall.allReduce (var.tensor mem) async]
        ∧ (allReduceMultiple env.traced vars scale async contiguous (mem, (s, calls))).2.2
            = calls ++ [CollectiveCall.allReduceMultiple
                (vars.map (fun v => v.sharedData_)) async contiguous]) := by
  refine ⟨barrier_traced W env s calls, fun h1 => ?_, fun hgt => ?_⟩
  · have hle : ¬ (env.traced.getWorldSize > 1) := by
      show ¬ (env.getWorldSize > 1)
      omega
    exact ⟨by simp [allReduce, hle], by simp [allReduceMultiple, hle]⟩
  · have hgt2 : env.traced.getWorldSize > 1 := hgt
    refine ⟨?_, ?_⟩
    · simp only [allReduce, hgt2, if_true, allReduceInPlace]
      rfl
    · simp only [allReduceMultiple, hgt2, if_true]
      rfl

/-- Witness for C6: with one synthetic process (world size 1) `barrier()` logs
its one `allReduce(Tensor&, bool)` call while `allReduce(Variable&, ...)` and
`allReduceMultiple` log nothing; with two synthetic processes each of them logs
its own primitive once. -/
theorem barrier_calls_collective_once_witness :
    (barrier (testRuntime 0).lift (syntheticBackend [[0]]).traced (0, [])).2.2
        = [CollectiveCall.allReduce ((testRuntime 0).fromVector [0]) false]
    ∧ (allReduce (syntheticBackend [[0]]).traced { sharedData_ := 0 } 2 false
        (testMemory [1], (0, []))).2.2 = []
    ∧ (allReduceMultiple (syntheticBackend [[0]]).traced
        [{ sharedData_ := 0 }, { sharedData_ := 1 }] 2 false true
        (testMemory [1], (0, []))).2.2 = []
    ∧ (allReduceMultiple (syntheticBackend [[1], [3]]).traced
        [{ sharedData_ := 0 }, { sharedData_ := 1 }] 2 false true
        (testMemory [1], (0, []))).2.2
        = [CollectiveCall.allReduceMultiple [0, 1] false true] :=
  ⟨(barrier_calls_collective_once (testRuntime 0) (syntheticBackend [[0]])
      { sharedData_ := 0 } [{ sharedData_ := 0 }, { sharedData_ := 1 }] 2 false true
      (testMemory [1]) 0 []).1,
    ((barrier_calls_collective_once (testRuntime 0) (syntheticBackend [[0]])
      { sharedData_ := 0 } [{ sharedData_ := 0 }, { sharedData_ := 1 }] 2 false true
      (testMemory [1]) 0 []).2.1 rfl).1,
    ((barrier_calls_collective_once (testRuntime 0) (syntheticBackend [[0]])
      { sharedData_ := 0 } [{ sharedData_ := 0 }, { sharedData_ := 1 }] 2 false true
      (testMemory [1]) 0 []).2.1 rfl).2,
    ((barrier_calls_collective_once (testRuntime 0) (syntheticBackend [[1], [3]])
      { sharedData_ := 0 } [{ sharedData_ := 0 }, { sharedData_ := 1 }] 2 false true
      (testMemory [1]) 0 []).2.2 (by decide)).2⟩

/-- Counterexample to C6 as stated: with one process (world size 1), `barrier()`
calls the collective primitive once. -/
theorem barrier_not_gated_world_size_one :
    (syntheticBackend [[0]]).counted.getWorldSize = 1
    ∧ (barrier (testRuntime 0).lift (syntheticBackend [[0]]).counted (0, 0)).2.2 = 1 := by
  refine ⟨rfl, rfl⟩

theorem elementwiseSum_scaled (vs : List (List ℚ)) :
    (elementwiseSum vs).map (fun x => x * (1 / (vs.length : ℚ))) = elementwiseMean vs := by
  simp [elementwiseSum, elementwiseMean, List.map_map, Function.comp_def, div_eq_mul_inv]

theorem elementwiseMean_singleton (v : List ℚ) : elementwiseMean [v] = v := by
  apply List.ext_getElem
  · simp [elementwiseMean]
  · intro j h1 h2
    simp [elementwiseMean, List.getElem?_eq_getElem h2]

/-- C4: for `N ≥ 1` processes holding values `vs` of equal shape, with a backend
whose collective replaces the contents of a process's tensor by the elementwise
sum of `vs`, `allReduce` with `scale = 1/N` leaves in every process the
elementwise mean `(v₁ + ... + v_N) / N`, over exact rationals. -/
theorem allReduce_mean (env : DistributedEnv ℚ σ) (vs : List (List ℚ))
    (_hshape : ∀ v ∈ vs, v.length = (vs.headD []).length)
    (hws : env.getWorldSize = (vs.length : Int))
    (hprim : ∀ (t : Tensor ℚ) (async : Bool) (s : σ), t.impl_.data ∈ vs →
      (env.allReduce t async s).1.impl_.data = elementwiseSum vs)
    (var : Variable) (async : Bool) (mem : Memory ℚ) (s : σ)
    (hv : (var.tensor mem).impl_.data ∈ vs) :
    (var.tensor (allReduce env var (1 / (vs.length : ℚ)) async (mem, s)).1).impl_.data
      = elementwiseMean vs := by
  by_cases hN : env.getWorldSize > 1
  · have hp := hprim (mem var.sharedData_) async s hv
    simp only [allReduce, hN, if_true, scaleInPlace, Variable.tensor, allReduceInPlace,
      Function.update_same, Tensor.mulAssign, hp]
    exact elementwiseSum_scaled vs
  · have hlen : vs.length = 1 := by
      have hpos : 0 < vs.length := List.length_pos_of_mem hv
      omega
    obtain ⟨v, rfl⟩ := List.length_eq_one.mp hlen
    have hdata : (mem var.sharedData_).impl_.data = v := by
      simpa [Variable.tensor] using hv
    simp only [allReduce, hN, if_false, scaleInPlace, Variable.tensor,
      Function.update_same, Tensor.mulAssign, hdata, elementwiseMean_singleton]
    simp

/-- Witness for C4: two synthetic processes holding `[1, 2]` and `[3, 4]`; the
process holding `[1, 2]` ends with the mean `[2, 3]`. -/
theorem allReduce_mean_witness :
    (Variable.tensor (allReduce (syntheticBackend [[1, 2], [3, 4]]) { sharedData_ := 0 }
        (1 / (([[1, 2], [3, 4]] : List (List ℚ)).length : ℚ)) false
        (testMemory [1, 2], 0)).1 { sharedData_ := 0 }).impl_.data
      = elementwiseMean [[1, 2], [3, 4]]
    ∧ elementwiseMean [[1, 2], [3, 4]] = [2, 3] :=
  ⟨allReduce_mean (syntheticBackend [[1, 2], [3, 4]]) [[1, 2], [3, 4]]
      (by simp) rfl (fun _ _ _ _ => rfl) { sharedData_ := 0 } false (testMemory [1, 2]) 0
      (by simp [Variable.tensor, testMemory, testTensor]),
    by norm_num [elementwiseMean, List.range_succ]⟩

end CollectiveTheorems

section OwnershipTheorems

variable {R : Type}

/-- C7: for a live tensor `a`, the copy `b = Tensor(a)` owns a newly allocated
adapter, other than `a`'s, whose state is the clone of `a`'s: `b` starts with
`a`'s shape, element type, backend type and contents, the copy leaves `a` as it
was, any mutation through `b` leaves what is observed of `a` unchanged, and any
mutation through `a` leaves what is observed of `b` unchanged. -/
theorem clone_isolation (h : AdapterStore R) (a : TensorObj) (ha : a.impl_ < h.next) :
    (TensorObj.copy h a).1.impl_ ≠ a.impl_
    ∧ ((TensorObj.copy h a).1.observe (TensorObj.copy h a).2).shape = (a.observe h).shape
    ∧ ((TensorObj.copy h a).1.observe (TensorObj.copy h a).2).type = (a.observe h).type
    ∧ ((TensorObj.copy h a).1.observe (TensorObj.copy h a).2).backendType
        = (a.observe h).backendType
    ∧ (TensorObj.copy h a).1.observe (TensorObj.copy h a).2 = a.observe h
    ∧ a.observe (TensorObj.copy h a).2 = a.observe h
    ∧ (∀ f : TensorAdapterBase R → TensorAdapterBase R,
        a.observe ((TensorObj.copy h a).1.mutate (TensorObj.copy h a).2 f) = a.observe h)
    ∧ (∀ f : TensorAdapterBase R → TensorAdapterBase R,
        (TensorObj.copy h a).1.observe (a.mutate (TensorObj.copy h a).2 f) = a.observe h) := by
  have hne : a.impl_ ≠ h.next := Nat.ne_of_lt ha
  have hb : (TensorObj.copy h a).1.observe (TensorObj.copy h a).2 = a.observe h := by
    simp [TensorObj.copy, TensorObj.observe, AdapterStore.clone]
  refine ⟨fun hEq => hne hEq.symm, ?_, ?_, ?_, hb, ?_, fun f => ?_, fun f => ?_⟩
  · rw [hb]
  · rw [hb]
  · rw [hb]
  · simp [TensorObj.copy, TensorObj.observe, AdapterStore.clone, Function.update_noteq hne]
  · simp [TensorObj.copy, TensorObj.observe, TensorObj.mutate, AdapterStore.clone,
      Function.update_noteq hne]
  · simp [TensorObj.copy, TensorObj.observe, TensorObj.mutate, AdapterStore.clone,
      Function.update_noteq (Ne.symm hne)]

/-- Witness for C7: in a store with three adapters in use, the copy of the
tensor owning adapter 1 owns adapter 3, and emptying the copy's contents leaves
the original's contents `[1]`. -/
theorem clone_isolation_witness :
    (TensorObj.copy (testStore 3) { impl_ := 1 }).1.impl_ = 3
    ∧ (TensorObj.observe
        ((TensorObj.copy (testStore 3) { impl_ := 1 }).1.mutate
          (TensorObj.copy (testStore 3) { impl_ := 1 }).2
          (fun ad => { ad with data := [], shape := [0] }))
        { impl_ := 1 })
      = TensorObj.observe (testStore 3) { impl_ := 1 } :=
  ⟨rfl,
    (clone_isolation (testStore 3) { impl_ := 1 } (by decide)).2.2.2.2.2.2.1
      (fun ad => { ad with data := [], shape := [0] })⟩

end OwnershipTheorems

end fl
